import Mathlib

/-!
Shallow embedding of the zenoh-c subscriber FFI boundary layer
(`src/subscriber.rs`, `src/lib.rs`, `src/platform/x86_64.rs`,
`src/platform/aarch64.rs`).

External collaborators (the zenoh session/runtime, the closure bridge, the
sample/commons types) are not part of the sources; they are modelled from the
specification's interface sections and marked `Modelled from the spec:`.
Machine integers (the `i8` status code, the errno) are modelled as `Int`.
-/

namespace ZenohC

/-- Log levels used by the boundary layer (`log::debug!`, `log::warn!`). -/
inductive LogLevel where
  | debug
  | warn
deriving DecidableEq

/-- A single log emission, recorded in outcome traces. -/
structure LogEntry where
  level : LogLevel
  msg : String
deriving DecidableEq

/-- `lib.rs`: `pub(crate) const LOG_INVALID_SESSION: &str = "Invalid session";` -/
def LOG_INVALID_SESSION : String := "Invalid session"

/-- Modelled from the spec: a native-library error (`zenoh_util` error value,
an external collaborator). Per §6 of the spec, the status code surfaced from
it is "a native-library-defined error number" and "nonzero = a
native-library-defined error number surfaced verbatim", so the errno carried
by an error is a nonzero integer. `msg` models its Display rendering. -/
structure ZError where
  msg : String
  errno : { n : Int // n ≠ 0 }
deriving DecidableEq

/-- `subscriber.rs` lines 35-38: the boundary reliability enumeration
`z_reliability_t` with variants `BEST_EFFORT` and `RELIABLE`. -/
inductive z_reliability_t where
  | BEST_EFFORT
  | RELIABLE
deriving DecidableEq

/-- Modelled from the spec: the native reliability enumeration
`zenoh::subscriber::Reliability` (external collaborator), a closed two-value
enumeration (best-effort, reliable). -/
inductive Reliability where
  | BestEffort
  | Reliable
deriving DecidableEq

/-- `subscriber.rs` lines 40-48: `impl From<Reliability> for z_reliability_t`. -/
def Reliability.toBoundary : Reliability → z_reliability_t
  | .BestEffort => .BEST_EFFORT
  | .Reliable => .RELIABLE

/-- `subscriber.rs` lines 50-58: `impl From<z_reliability_t> for Reliability`. -/
def z_reliability_t.toNative : z_reliability_t → Reliability
  | .BEST_EFFORT => .BestEffort
  | .RELIABLE => .Reliable

/-- Modelled from the spec: the native subscriber resource
(`zenoh::subscriber::Subscriber`, external collaborator). The only operation
the boundary layer invokes on it is the synchronous teardown
`s.undeclare().res_sync()`, whose result is recorded here. -/
structure SubscriberResource where
  undeclareResult : Except ZError Unit

/-- `subscriber.rs` line 63:
`type Subscriber = Option<Box<zenoh::subscriber::Subscriber<'static, ()>>>;` -/
abbrev Subscriber := Option SubscriberResource

/-- `subscriber.rs` line 77: `pub struct z_owned_subscriber_t([usize; 1]);`.
The byte payload is, by the handle invariant (spec §3), always a valid
reinterpretation of the native optional type, so the embedding carries the
reinterpreted value directly: `inner` is what the `From`/`AsRef`/`AsMut`
transmute impls (lines 79-95) read and write. -/
structure z_owned_subscriber_t where
  inner : Subscriber

/-- `subscriber.rs` lines 97-100: `z_owned_subscriber_t::new`. -/
def z_owned_subscriber_t.new (sub : SubscriberResource) : z_owned_subscriber_t :=
  ⟨some sub⟩

/-- `subscriber.rs` lines 101-103: `z_owned_subscriber_t::null`. -/
def z_owned_subscriber_t.null : z_owned_subscriber_t :=
  ⟨none⟩

/-- `subscriber.rs` lines 107-110: `z_subscriber_null`. -/
def z_subscriber_null : z_owned_subscriber_t :=
  z_owned_subscriber_t.null

/-- `subscriber.rs` lines 256-258: `z_subscriber_check` returns
`sub.as_ref().is_some()`. -/
def z_subscriber_check (sub : z_owned_subscriber_t) : Bool :=
  sub.inner.isSome

/-- Result of `z_undeclare_subscriber`: the returned `i8` status, the state the
handle is left in, and the log emissions. -/
structure UndeclareOutcome where
  status : Int
  sub : z_owned_subscriber_t
  logs : List LogEntry

/-- `subscriber.rs` lines 243-251: `z_undeclare_subscriber`. `take()` drains
the handle; on teardown failure the error is logged at warning level and its
errno returned; otherwise the function returns 0. -/
def z_undeclare_subscriber (sub : z_owned_subscriber_t) : UndeclareOutcome :=
  match sub.inner with
  | some s =>
    match s.undeclareResult with
    | .error e => { status := e.errno.val, sub := ⟨none⟩, logs := [⟨.warn, e.msg⟩] }
    | .ok _ => { status := 0, sub := ⟨none⟩, logs := [] }
  | none => { status := 0, sub := sub, logs := [] }

/-- `subscriber.rs` lines 118-120: `z_subscriber_options_t`. -/
structure z_subscriber_options_t where
  reliability : z_reliability_t
deriving DecidableEq

/-- Modelled from the spec: `zenoh_protocol_core::SubInfo` (external
collaborator); its `Default` supplies the documented default reliability. -/
structure SubInfo where
  reliability : Reliability

/-- Modelled from the spec: `SubInfo::default()` — the options record's
documented default (spec §3: "a small closed set of enumerated options, each
with a documented default"). -/
def SubInfo.default : SubInfo :=
  { reliability := Reliability.BestEffort }

/-- `subscriber.rs` lines 124-129: `z_subscriber_options_default` builds the
options record from `SubInfo::default().reliability.into()`. -/
def z_subscriber_options_default : z_subscriber_options_t :=
  { reliability := SubInfo.default.reliability.toBoundary }

/-- Modelled from the spec: the Closure Bridge value type (§6) — "a value type
holding a function pointer and an opaque context pointer"; pointers are
modelled as integers, 0 standing for null. This is `z_owned_closure_sample_t`
from the repository's closures module (not among the sources). -/
structure z_owned_closure_sample_t where
  context : Nat
  call : Nat
  drop : Nat
deriving DecidableEq

/-- Modelled from the spec: `z_owned_closure_sample_t::empty()` — "exposes
`empty()` producing a no-op closure used as a swap target". -/
def z_owned_closure_sample_t.empty : z_owned_closure_sample_t :=
  { context := 0, call := 0, drop := 0 }

/-- Modelled from the spec: a zero-copy native payload buffer
(`zenoh::buf::ZBuf`-like, external collaborator); `contiguous` yields its
contiguous bytes. -/
structure ZBuf where
  bytes : List Nat

/-- Modelled from the spec: `SplitBuffer::contiguous` on the native payload. -/
def ZBuf.contiguous (b : ZBuf) : List Nat :=
  b.bytes

/-- Modelled from the spec: the native sample delivered by the zenoh runtime
to the registered callback (external collaborator): payload buffer,
key expression, encoding tag, kind tag, optional timestamp. -/
structure NativeSample where
  payload : ZBuf
  key_expr : String
  encoding : Nat
  kind : Nat
  timestamp : Option Nat

/-- Modelled from the spec: the boundary (pointer, length) payload view
`z_bytes_t` from the commons module (not among the sources); `start` holds the
byte sequence the pointer addresses. -/
structure z_bytes_t where
  start : List Nat
  len : Nat
deriving DecidableEq

/-- Modelled from the spec: the boundary event record `z_sample_t` (§6) —
"a plain record containing a key-expression view, a (pointer, length) payload
view, an encoding tag, a kind tag, and an optional timestamp". -/
structure z_sample_t where
  keyexpr : String
  payload : z_bytes_t
  encoding : Nat
  kind : Nat
  timestamp : Option Nat
deriving DecidableEq

/-- A recorded invocation of the Closure Bridge: which closure was called and
with which boundary event record. -/
structure SampleCallInvocation where
  closure : z_owned_closure_sample_t
  sample : z_sample_t
deriving DecidableEq

/-- Modelled from the spec: `z_closure_sample_call` (§6) — "invokes the
function pointer with the context and the event view"; the embedding records
the invocation. -/
def z_closure_sample_call (c : z_owned_closure_sample_t) (s : z_sample_t) :
    SampleCallInvocation :=
  ⟨c, s⟩

/-- `subscriber.rs` lines 208-222: the Rust closure registered with the native
subscriber. For each native sample it views the contiguous payload as a
(pointer, length) pair, builds a fresh `z_sample_t` from the sample's fields
and passes it synchronously to `z_closure_sample_call`. -/
def subscriberCallback (closure : z_owned_closure_sample_t)
    (sample : NativeSample) : SampleCallInvocation :=
  let payload := sample.payload.contiguous
  let bytes : z_bytes_t := { start := payload, len := payload.length }
  let s : z_sample_t :=
    { keyexpr := sample.key_expr
      payload := bytes
      encoding := sample.encoding
      kind := sample.kind
      timestamp := sample.timestamp }
  z_closure_sample_call closure s

/-- A native subscriber declaration actually performed
(`.declare_subscriber(keyexpr).callback(..).reliability(r).res()`): the key
expression, the reliability handed to the builder, the caller closure moved
into the registered Rust closure, and the registered callback itself. -/
structure NativeDeclareCall where
  keyexpr : String
  reliability : Reliability
  closure : z_owned_closure_sample_t
  registered : NativeSample → SampleCallInvocation

/-- Modelled from the spec: the live native session state behind a populated
session handle (§6): `declare_subscription(key_expr) -> builder` with
chainable `.callback(fn).reliability(mode).res() -> Result<Resource, Error>`;
`declareResult` gives the result of resolving that builder. -/
structure Session where
  declareResult : String → Reliability → Except ZError SubscriberResource

/-- Modelled from the spec: the loaned session handle `z_session_t` as seen
through `session.as_ref()` in `z_declare_subscriber` — either a live session
or the empty/invalid state. -/
abbrev z_session_t := Option Session

/-- Result of `z_declare_subscriber`: the returned handle, the value left in
the caller's callback slot after the swap, the native declarations performed,
and the log emissions. -/
structure DeclareOutcome where
  handle : z_owned_subscriber_t
  callbackSlot : z_owned_closure_sample_t
  nativeCalls : List NativeDeclareCall
  logs : List LogEntry

/-- `subscriber.rs` lines 201-205: the reliability actually used — the options
record (defaulted via `z_subscriber_options_default()` when the pointer is
null) converted by `(*opts).reliability.into()`. -/
def effectiveReliability (opts : Option z_subscriber_options_t) : Reliability :=
  (opts.getD z_subscriber_options_default).reliability.toNative

/-- `subscriber.rs` lines 189-238: `z_declare_subscriber`. The caller's
closure is first swapped with `empty()`; an empty session logs
`LOG_INVALID_SESSION` at debug level and yields a null handle with no native
call; otherwise the native declaration is resolved with the effective
reliability, a failure is logged at debug level and yields a null handle, and
a success yields a populated handle. -/
def z_declare_subscriber (session : z_session_t) (keyexpr : String)
    (callback : z_owned_closure_sample_t)
    (opts : Option z_subscriber_options_t) : DeclareOutcome :=
  let closure := callback
  let rest : z_owned_subscriber_t × List NativeDeclareCall × List LogEntry :=
    match session with
    | some s =>
      let reliability := effectiveReliability opts
      let call : NativeDeclareCall :=
        { keyexpr := keyexpr
          reliability := reliability
          closure := closure
          registered := subscriberCallback closure }
      match s.declareResult keyexpr reliability with
      | .ok sub => (z_owned_subscriber_t.new sub, [call], [])
      | .error e => (z_owned_subscriber_t.null, [call], [⟨.debug, e.msg⟩])
    | none => (z_owned_subscriber_t.null, [], [⟨.debug, LOG_INVALID_SESSION⟩])
  { handle := rest.1
    callbackSlot := z_owned_closure_sample_t.empty
    nativeCalls := rest.2.1
    logs := rest.2.2 }

/-! ## Layout Guard and transmute sites (`lib.rs` lines 69-83,
`subscriber.rs` lines 79-95)

These claims are about which source construct performs each bit-level
reinterpretation, so the conversion sites are embedded as data: for each site,
the types involved and whether the site is gated by the compile-time
alignment-equality assertion `const _ : () = assert!(align_of::<S>() ==
align_of::<D>())`. -/

/-- A bit-level reinterpretation site: the impl it lives in, source and
destination types, and whether the site carries the compile-time
alignment-equality assertion. -/
structure TransmuteSite where
  site : String
  src : String
  dst : String
  alignAssert : Bool
deriving DecidableEq

/-- `lib.rs` lines 74-83: the `define_guarded_transmute!` macro emits, for a
source/destination type pair, a `const` alignment-equality assertion followed
by the `GuardedTransmute` impl performing the reinterpretation. -/
def define_guarded_transmute (src dst : String) : TransmuteSite :=
  { site := "impl GuardedTransmute", src := src, dst := dst, alignAssert := true }

/-- `subscriber.rs` lines 79-95: the three as-native conversions between
`z_owned_subscriber_t` and `Subscriber` used by declare/undeclare/check. Each
is a direct `unsafe { std::mem::transmute(..) }` with no accompanying
compile-time alignment assertion anywhere in the file. -/
def subscriber_as_native_transmutes : List TransmuteSite :=
  [ { site := "impl From<Subscriber> for z_owned_subscriber_t"
      src := "Subscriber", dst := "z_owned_subscriber_t", alignAssert := false },
    { site := "impl AsRef<Subscriber> for z_owned_subscriber_t"
      src := "z_owned_subscriber_t", dst := "Subscriber", alignAssert := false },
    { site := "impl AsMut<Subscriber> for z_owned_subscriber_t"
      src := "z_owned_subscriber_t", dst := "Subscriber", alignAssert := false } ]

/-! ## Platform reply-handle definitions (`lib.rs` lines 54-67,
`platform/x86_64.rs`, `platform/aarch64.rs`)

The claim is about how the `z_owned_reply_t` export resolves per target
architecture through the `cfg` attributes, so the per-module definitions and
the cfg resolution are embedded as data. -/

/-- The two target architectures the platform module's cfg attributes
distinguish. -/
inductive TargetArch where
  | X86_64
  | Aarch64
deriving DecidableEq

/-- The submodules of the `platform` module in `lib.rs` line 55-58. -/
inductive PlatformModule where
  | Mx86_64
  | Maarch64
  | Mdefault
deriving DecidableEq

/-- The declared layout of a `z_owned_reply_t` definition: word count of the
`[u64; N]` payload, alignment from `repr(C, align(A))`, and the `cfg` gate on
the item, if any. -/
structure ReplyDefn where
  words : Nat
  alignment : Nat
  cfgGate : Option String
deriving DecidableEq

/-- `platform/x86_64.rs` lines 8-10:
`#[repr(C,align(8))] #[cfg(foo)] pub struct z_owned_reply_t([u64; 23]);` -/
def x86_64_z_owned_reply_t : ReplyDefn :=
  { words := 23, alignment := 8, cfgGate := some "foo" }

/-- `platform/aarch64.rs` lines 61-62:
`#[repr(C,align(16))] pub struct z_owned_reply_t([u64; 24]);` -/
def aarch64_z_owned_reply_t : ReplyDefn :=
  { words := 24, alignment := 16, cfgGate := none }

/-- `lib.rs` lines 63-66: which submodule's `z_owned_reply_t` the platform
module re-exports for each target architecture — under
`#[cfg(target_arch="x86_64")]` and `#[cfg(target_arch="aarch64")]` alike, the
`pub use` names `x86_64::z_owned_reply_t`. -/
def exportedReplySource : TargetArch → PlatformModule
  | .X86_64 => .Mx86_64
  | .Aarch64 => .Mx86_64

/-- The cfg flags a build of this crate enables for a target architecture:
exactly the `target_arch` flag (no build script or configuration in the
sources sets any other flag; in particular `foo` is never enabled). -/
def enabledCfgs : TargetArch → List String
  | .X86_64 => ["target_arch=x86_64"]
  | .Aarch64 => ["target_arch=aarch64"]

/-- Whether a cfg gate (absent, or a named flag) holds for a target. -/
def gateSatisfied (a : TargetArch) : Option String → Bool
  | none => true
  | some f => (enabledCfgs a).contains f

/-- The reply definition held by each platform submodule that defines one. -/
def moduleReplyDefn : PlatformModule → Option ReplyDefn
  | .Mx86_64 => some x86_64_z_owned_reply_t
  | .Maarch64 => some aarch64_z_owned_reply_t
  | .Mdefault => none

/-- The reply definition the crate actually exports for a target: the
re-exported module's definition, if its cfg gate is satisfied. -/
def exportedReplyDefn (a : TargetArch) : Option ReplyDefn :=
  match moduleReplyDefn (exportedReplySource a) with
  | some d => if gateSatisfied a d.cfgGate then some d else none
  | none => none

/-! ## Concrete instances used by witnesses -/

/-- A concrete native error: errno -1, message "boom". -/
def sampleError : ZError := ⟨"boom", ⟨-1, by decide⟩⟩

/-- A native subscriber whose synchronous teardown fails with `sampleError`. -/
def failingSubscriber : SubscriberResource := ⟨Except.error sampleError⟩

/-- A native subscriber whose synchronous teardown succeeds. -/
def okSubscriber : SubscriberResource := ⟨Except.ok ()⟩

/-- A live session whose declarations all succeed with `okSubscriber`. -/
def okSession : Session := ⟨fun _ _ => Except.ok okSubscriber⟩

/-- A live session whose declarations all fail with `sampleError`. -/
def errSession : Session := ⟨fun _ _ => Except.error sampleError⟩

/-! ## Theorems -/

/-- Claim C1: for every populated subscriber handle, `z_undeclare_subscriber`
leaves the handle empty; if the native teardown fails it returns the nonzero
platform error code extracted from the failure (logging at warning level)
while the handle nevertheless remains empty, so a subsequent check returns
false and a subsequent undeclare is a no-op returning 0; on teardown success
it returns 0. -/
theorem c1_undeclare_populated (s : SubscriberResource) :
    (z_undeclare_subscriber ⟨some s⟩).sub.inner = none
    ∧ (∀ e : ZError, s.undeclareResult = .error e →
        (z_undeclare_subscriber ⟨some s⟩).status = e.errno.val
        ∧ (z_undeclare_subscriber ⟨some s⟩).status ≠ 0
        ∧ (z_undeclare_subscriber ⟨some s⟩).logs = [⟨.warn, e.msg⟩])
    ∧ (s.undeclareResult = .ok () → (z_undeclare_subscriber ⟨some s⟩).status = 0)
    ∧ z_subscriber_check (z_undeclare_subscriber ⟨some s⟩).sub = false
    ∧ z_undeclare_subscriber (z_undeclare_subscriber ⟨some s⟩).sub =
        { status := 0, sub := (z_undeclare_subscriber ⟨some s⟩).sub, logs := [] } := by
  rcases hs : s.undeclareResult with e | u
  · refine ⟨?_, ?_, ?_, ?_, ?_⟩ <;>
      simp [z_undeclare_subscriber, z_subscriber_check, hs]
    exact e.errno.property
  · refine ⟨?_, ?_, ?_, ?_, ?_⟩ <;>
      simp [z_undeclare_subscriber, z_subscriber_check, hs]

/-- Witness for C1 at a concrete failing subscriber (errno -1). -/
theorem c1_witness :
    (z_undeclare_subscriber ⟨some failingSubscriber⟩).sub.inner = none
    ∧ (z_undeclare_subscriber ⟨some failingSubscriber⟩).status = -1 := by
  have h := c1_undeclare_populated failingSubscriber
  exact ⟨h.1, ((h.2.1 sampleError rfl).1).trans rfl⟩

/-- Claim C2: `z_undeclare_subscriber` is idempotent — on an empty handle it
is a no-op returning 0, and the second of two successive calls on the same
handle always returns 0 regardless of the first call's result. -/
theorem c2_undeclare_idempotent (h : z_owned_subscriber_t) :
    (h.inner = none →
      z_undeclare_subscriber h = { status := 0, sub := h, logs := [] })
    ∧ (z_undeclare_subscriber (z_undeclare_subscriber h).sub).status = 0 := by
  obtain ⟨inner⟩ := h
  constructor
  · intro hn
    simp only at hn
    subst hn
    rfl
  · rcases inner with _ | s
    · rfl
    · rcases hs : s.undeclareResult with e | u <;>
        simp [z_undeclare_subscriber, hs]

/-- Witness for C2: the empty handle, and a handle whose teardown fails. -/
theorem c2_witness :
    z_undeclare_subscriber z_owned_subscriber_t.null =
      { status := 0, sub := z_owned_subscriber_t.null, logs := [] }
    ∧ (z_undeclare_subscriber
        (z_undeclare_subscriber ⟨some failingSubscriber⟩).sub).status = 0 := by
  have h1 := c2_undeclare_idempotent z_owned_subscriber_t.null
  have h2 := c2_undeclare_idempotent ⟨some failingSubscriber⟩
  exact ⟨h1.1 rfl, h2.2⟩

/-- Claim C3: `z_declare_subscriber` never raises an error at the boundary —
an empty session yields an empty handle, zero native calls and a debug log of
`LOG_INVALID_SESSION`; a native failure yields an empty handle with the
failure logged at debug level; only native success yields a populated
handle. -/
theorem c3_declare_infallible :
    (∀ (k : String) (cb : z_owned_closure_sample_t)
       (opts : Option z_subscriber_options_t),
      z_declare_subscriber none k cb opts =
        { handle := z_owned_subscriber_t.null
          callbackSlot := z_owned_closure_sample_t.empty
          nativeCalls := []
          logs := [⟨.debug, LOG_INVALID_SESSION⟩] })
    ∧ (∀ (s : Session) (k : String) (cb : z_owned_closure_sample_t)
         (opts : Option z_subscriber_options_t) (e : ZError),
        s.declareResult k (effectiveReliability opts) = .error e →
          (z_declare_subscriber (some s) k cb opts).handle =
            z_owned_subscriber_t.null
          ∧ (z_declare_subscriber (some s) k cb opts).logs =
            [⟨.debug, e.msg⟩])
    ∧ (∀ (s : Session) (k : String) (cb : z_owned_closure_sample_t)
         (opts : Option z_subscriber_options_t) (sub : SubscriberResource),
        s.declareResult k (effectiveReliability opts) = .ok sub →
          (z_declare_subscriber (some s) k cb opts).handle =
            z_owned_subscriber_t.new sub) := by
  refine ⟨fun k cb opts => rfl, ?_, ?_⟩
  · intro s k cb opts e hr
    constructor <;> simp [z_declare_subscriber, hr]
  · intro s k cb opts sub hr
    simp [z_declare_subscriber, hr]

/-- Witness for C3: the empty session, a failing session, a succeeding
session. -/
theorem c3_witness :
    z_declare_subscriber none "a/b" z_owned_closure_sample_t.empty none =
      { handle := z_owned_subscriber_t.null
        callbackSlot := z_owned_closure_sample_t.empty
        nativeCalls := []
        logs := [⟨.debug, LOG_INVALID_SESSION⟩] }
    ∧ (z_declare_subscriber (some errSession) "a/b"
        z_owned_closure_sample_t.empty none).handle = z_owned_subscriber_t.null
    ∧ (z_declare_subscriber (some okSession) "a/b"
        z_owned_closure_sample_t.empty none).handle =
        z_owned_subscriber_t.new okSubscriber := by
  have h := c3_declare_infallible
  exact ⟨h.1 "a/b" z_owned_closure_sample_t.empty none,
    (h.2.1 errSession "a/b" z_owned_closure_sample_t.empty none sampleError rfl).1,
    h.2.2 okSession "a/b" z_owned_closure_sample_t.empty none okSubscriber rfl⟩

/-- Claim C4, counterexample: it is not the case that every as-native
reinterpretation between `z_owned_subscriber_t` and the native optional
subscriber type carries the compile-time alignment-equality assertion — the
`From`/`AsRef`/`AsMut` impls in `subscriber.rs` are raw
`std::mem::transmute` calls. -/
theorem c4_counterexample :
    ¬ (∀ t ∈ subscriber_as_native_transmutes, t.alignAssert = true) := by
  decide

/-- Claim C4, amended: the Layout Guard macro `define_guarded_transmute` does
gate its conversion with a compile-time alignment-equality assertion, but the
as-native conversions between `z_owned_subscriber_t` and
`Option<Box<Subscriber>>` used by declare/undeclare/check are all direct
unguarded `std::mem::transmute` calls, not produced by the guard. -/
theorem c4_unguarded_transmutes :
    (∀ src dst : String, (define_guarded_transmute src dst).alignAssert = true)
    ∧ (∀ t ∈ subscriber_as_native_transmutes, t.alignAssert = false) := by
  exact ⟨fun src dst => rfl, by decide⟩

/-- Witness for C4's amended theorem at the guard applied to one type pair
and at the `From<Subscriber>` transmute site. -/
theorem c4_witness :
    (define_guarded_transmute "z_owned_config_t" "Config").alignAssert = true
    ∧ ({ site := "impl From<Subscriber> for z_owned_subscriber_t"
         src := "Subscriber", dst := "z_owned_subscriber_t"
         alignAssert := false } : TransmuteSite).alignAssert = false := by
  have h := c4_unguarded_transmutes
  exact ⟨h.1 "z_owned_config_t" "Config", h.2 _ (by decide)⟩

/-- Claim C5: `z_subscriber_check` returns exactly whether the handle owns a
live subscriber — false on `z_subscriber_null()`, true immediately after a
successful declare, false after the first undeclare; it is a pure function of
the handle. -/
theorem c5_check_semantics :
    (∀ h : z_owned_subscriber_t, z_subscriber_check h = h.inner.isSome)
    ∧ z_subscriber_check z_subscriber_null = false
    ∧ (∀ (s : Session) (k : String) (cb : z_owned_closure_sample_t)
         (opts : Option z_subscriber_options_t) (sub : SubscriberResource),
        s.declareResult k (effectiveReliability opts) = .ok sub →
          z_subscriber_check (z_declare_subscriber (some s) k cb opts).handle
            = true)
    ∧ (∀ h : z_owned_subscriber_t,
        z_subscriber_check (z_undeclare_subscriber h).sub = false) := by
  refine ⟨fun h => rfl, rfl, ?_, ?_⟩
  · intro s k cb opts sub hr
    simp [z_declare_subscriber, hr, z_subscriber_check, z_owned_subscriber_t.new]
  · intro h
    obtain ⟨inner⟩ := h
    rcases inner with _ | s
    · rfl
    · rcases hs : s.undeclareResult with e | u <;>
        simp [z_undeclare_subscriber, z_subscriber_check, hs]

/-- Witness for C5 at a concrete succeeding session. -/
theorem c5_witness :
    z_subscriber_check z_subscriber_null = false
    ∧ z_subscriber_check (z_declare_subscriber (some okSession) "a/b"
        z_owned_closure_sample_t.empty none).handle = true := by
  have h := c5_check_semantics
  exact ⟨h.2.1,
    h.2.2.1 okSession "a/b" z_owned_closure_sample_t.empty none okSubscriber rfl⟩

/-- Claim C6: declaring with a null options pointer is exactly equivalent to
declaring with the record returned by `z_subscriber_options_default()` — the
whole outcomes coincide, and in particular the reliability passed to the
native declaration is the same; there is no error path for absent options. -/
theorem c6_null_opts_default_equiv (s : Session) (k : String)
    (cb : z_owned_closure_sample_t) :
    z_declare_subscriber (some s) k cb none =
      z_declare_subscriber (some s) k cb (some z_subscriber_options_default)
    ∧ (z_declare_subscriber (some s) k cb none).nativeCalls.map
        NativeDeclareCall.reliability =
      (z_declare_subscriber (some s) k cb
        (some z_subscriber_options_default)).nativeCalls.map
        NativeDeclareCall.reliability := by
  exact ⟨rfl, rfl⟩

/-- Claim C7: the boundary/native reliability round trips are the identity in
both directions, and both enumerations are closed over exactly the two values
best-effort and reliable. -/
theorem c7_reliability_roundtrip :
    (∀ r : z_reliability_t, r.toNative.toBoundary = r)
    ∧ (∀ r : Reliability, r.toBoundary.toNative = r)
    ∧ (∀ r : z_reliability_t,
        r = z_reliability_t.BEST_EFFORT ∨ r = z_reliability_t.RELIABLE)
    ∧ (∀ r : Reliability,
        r = Reliability.BestEffort ∨ r = Reliability.Reliable) := by
  refine ⟨?_, ?_, ?_, ?_⟩
  · intro r; cases r <;> rfl
  · intro r; cases r <;> rfl
  · intro r
    cases r
    · exact Or.inl rfl
    · exact Or.inr rfl
  · intro r
    cases r
    · exact Or.inl rfl
    · exact Or.inr rfl

/-- Claim C8: on every call to `z_declare_subscriber` — success, native
failure, or invalid session — the caller's callback slot is left holding the
empty closure, and any native declaration performed owns the caller's
original closure. -/
theorem c8_callback_swap (sess : z_session_t) (k : String)
    (cb : z_owned_closure_sample_t) (opts : Option z_subscriber_options_t) :
    (z_declare_subscriber sess k cb opts).callbackSlot =
      z_owned_closure_sample_t.empty
    ∧ (∀ c ∈ (z_declare_subscriber sess k cb opts).nativeCalls,
        c.closure = cb) := by
  constructor
  · rfl
  · rcases sess with _ | s
    · intro c hc
      simp [z_declare_subscriber] at hc
    · rcases hr : s.declareResult k (effectiveReliability opts) with e | sub <;>
      · intro c hc
        simp [z_declare_subscriber, hr] at hc
        subst hc
        rfl

/-- Witness for C8 at a concrete session, closure and native call. -/
theorem c8_witness :
    (z_declare_subscriber (some okSession) "a/b" ⟨1, 2, 3⟩ none).callbackSlot =
      z_owned_closure_sample_t.empty
    ∧ ({ keyexpr := "a/b", reliability := Reliability.BestEffort
         closure := ⟨1, 2, 3⟩
         registered := subscriberCallback ⟨1, 2, 3⟩ } : NativeDeclareCall).closure
        = ⟨1, 2, 3⟩ := by
  have h := c8_callback_swap (some okSession) "a/b" ⟨1, 2, 3⟩ none
  exact ⟨h.1, h.2 _ (List.Mem.head _)⟩

/-- Claim C9: for every native sample, the registered callback builds a fresh
boundary sample whose payload is a pointer+length view of the sample's
contiguous payload bytes, whose key-expression view equals the sample's key
expression, carrying the encoding, kind and optional timestamp, and passes it
synchronously to the closure bridge; the callback registered by
`z_declare_subscriber` is exactly this function applied to the moved caller
closure. -/
theorem c9_event_fidelity (closure : z_owned_closure_sample_t)
    (s : NativeSample) :
    (subscriberCallback closure s).closure = closure
    ∧ (subscriberCallback closure s).sample.payload.len =
        s.payload.contiguous.length
    ∧ (subscriberCallback closure s).sample.payload.start = s.payload.contiguous
    ∧ (subscriberCallback closure s).sample.keyexpr = s.key_expr
    ∧ (subscriberCallback closure s).sample.encoding = s.encoding
    ∧ (subscriberCallback closure s).sample.kind = s.kind
    ∧ (subscriberCallback closure s).sample.timestamp = s.timestamp
    ∧ (∀ (sess : z_session_t) (k : String) (cb : z_owned_closure_sample_t)
         (opts : Option z_subscriber_options_t),
        ∀ c ∈ (z_declare_subscriber sess k cb opts).nativeCalls,
          c.registered = subscriberCallback cb) := by
  refine ⟨rfl, rfl, rfl, rfl, rfl, rfl, rfl, ?_⟩
  intro sess k cb opts c hc
  rcases sess with _ | sl
  · simp [z_declare_subscriber] at hc
  · rcases hr : sl.declareResult k (effectiveReliability opts) with e | sub <;>
    · simp [z_declare_subscriber, hr] at hc
      subst hc
      rfl

/-- Witness for C9 at the spec's concrete event: payload bytes
`[0x41, 0x42, 0x43]` and key expression "a/b". -/
theorem c9_witness :
    (subscriberCallback z_owned_closure_sample_t.empty
      { payload := ⟨[0x41, 0x42, 0x43]⟩, key_expr := "a/b", encoding := 0
        kind := 0, timestamp := none }).sample.payload.len = 3
    ∧ (subscriberCallback z_owned_closure_sample_t.empty
      { payload := ⟨[0x41, 0x42, 0x43]⟩, key_expr := "a/b", encoding := 0
        kind := 0, timestamp := none }).sample.payload.start =
        [0x41, 0x42, 0x43]
    ∧ (subscriberCallback z_owned_closure_sample_t.empty
      { payload := ⟨[0x41, 0x42, 0x43]⟩, key_expr := "a/b", encoding := 0
        kind := 0, timestamp := none }).sample.keyexpr = "a/b" := by
  have h := c9_event_fidelity z_owned_closure_sample_t.empty
    { payload := ⟨[0x41, 0x42, 0x43]⟩, key_expr := "a/b", encoding := 0
      kind := 0, timestamp := none }
  exact ⟨(h.2.1).trans rfl, (h.2.2.1).trans rfl, h.2.2.2.1⟩

/-- Claim C10: under the cfg attributes in `lib.rs`, both target
architectures re-export `z_owned_reply_t` from the `x86_64` platform module —
whose definition is `[u64; 23]` with alignment 8, itself gated by the
never-enabled cfg flag `foo` — while the distinct aarch64 definition
(`[u64; 24]`, alignment 16) is never exported, so the exported reply handle's
declared layout does not vary by architecture. -/
theorem c10_reply_export :
    (∀ a : TargetArch, exportedReplySource a = PlatformModule.Mx86_64)
    ∧ x86_64_z_owned_reply_t.words = 23
    ∧ x86_64_z_owned_reply_t.alignment = 8
    ∧ x86_64_z_owned_reply_t.cfgGate = some "foo"
    ∧ (∀ a : TargetArch, gateSatisfied a (some "foo") = false)
    ∧ aarch64_z_owned_reply_t.words = 24
    ∧ aarch64_z_owned_reply_t.alignment = 16
    ∧ (∀ a : TargetArch, exportedReplySource a ≠ PlatformModule.Maarch64)
    ∧ exportedReplyDefn TargetArch.X86_64 = exportedReplyDefn TargetArch.Aarch64
    ∧ (∀ a : TargetArch, exportedReplyDefn a = none) := by
  refine ⟨?_, rfl, rfl, rfl, ?_, rfl, rfl, ?_, rfl, ?_⟩ <;>
    intro a <;> cases a <;> first | rfl | decide

end ZenohC
